import Mathlib

/-!
Verification development for the `docker-registry-tui` repository.

The program (`run.py`) is a terminal UI browsing a container registry:
namespaces → repositories → tags → platform images → layers.  We give a
shallow embedding of the pieces of the program that the specification talks
about: the pure formatting helpers, the layer/history matching of
`LayerChoice.__init__`, the preferred-platform reordering of
`TagChoice.open_menu`, the lazy weak-reference menu cache shared by
`NamespaceMenu` / `RepositoryMenu` / `TagChoice`, and the pane-reset logic of
`ResettableFrame` / `reset_display`.

Python strings are modelled as `String` (a sequence of code points); Python
slicing `s[:n]` is modelled as taking the first `n` code points.  Python
object identity for menus is modelled by allocating numeric ids in an
explicit heap; a `weakref.ref` is the stored id, and dereferencing succeeds
while the id is still in the heap's alive set.  Garbage collection of an
unreferenced menu is an external event (`Heap.reclaim`).
-/

namespace DregTui

/-- Line 22 of `run.py`; original Python name `LAYER_HISTORY_INSTR_PREFIX`
(renamed here, keeping the value). -/
def LAYER_HISTORY_INSTR_PREF : String := "/bin/sh -c #(nop)"

/-- Line 23 of `run.py`. -/
def LAYER_HISTORY_INSTR_SUFFIX_BUILDKIT : String := "# buildkit"

/-- Binary units of the external `humanfriendly` library, largest first. -/
def binaryUnits : List (Nat × String) :=
  [(1024 ^ 8, "YiB"), (1024 ^ 7, "ZiB"), (1024 ^ 6, "EiB"), (1024 ^ 5, "PiB"),
   (1024 ^ 4, "TiB"), (1024 ^ 3, "GiB"), (1024 ^ 2, "MiB"), (1024, "KiB")]

/-- Model of the external collaborator `humanfriendly.format_size` with
`binary=True` (imported by the repository as `base_format_size`): pick the
largest binary unit not exceeding the byte count, divide, round to two
decimals and drop trailing zeros.  The repository only calls this for
`num_bytes ≥ 1024`, where a unit always matches. -/
def base_format_size (num_bytes : Nat) : String :=
  match binaryUnits.find? (fun u => num_bytes ≥ u.1) with
  | none => toString num_bytes ++ " B"
  | some u =>
    let hundredths := (100 * num_bytes + u.1 / 2) / u.1
    if hundredths % 100 == 0 then
      toString (hundredths / 100) ++ " " ++ u.2
    else if hundredths % 10 == 0 then
      toString (hundredths / 100) ++ "." ++ toString (hundredths % 100 / 10) ++ " " ++ u.2
    else
      toString (hundredths / 100) ++ "." ++
        (if hundredths % 100 < 10 then "0" else "") ++ toString (hundredths % 100) ++ " " ++ u.2

/-- Lines 72-75 of `run.py`. -/
def format_size (num_bytes : Nat) : String :=
  if num_bytes < 1024 then toString num_bytes ++ " B"
  else base_format_size num_bytes

/-- Lines 82-83 of `run.py`: `digest[7:19]`. -/
def trim_digest (digest : String) : String :=
  String.mk ((digest.data.drop 7).take 12)

/-- Lines 86-94 of `run.py`. -/
def clean_created_by (created_by : String) : String :=
  let s := created_by.trim
  let s := if s.startsWith LAYER_HISTORY_INSTR_PREF
           then (s.drop LAYER_HISTORY_INSTR_PREF.length).trim else s
  let s := if s.endsWith LAYER_HISTORY_INSTR_SUFFIX_BUILDKIT
           then (s.dropRight LAYER_HISTORY_INSTR_SUFFIX_BUILDKIT.length).trim else s
  s

/-- Lines 170-171 of `run.py`: `history_label[:22] + "..."` when the label
has more than 25 code points. -/
def truncateHistoryLabel (history_label : String) : String :=
  if history_label.length > 25 then String.mk (history_label.data.take 22) ++ "..."
  else history_label

/- Registry data model (fields of the external `dreg_client` objects that the
program reads). -/

structure HistoryItem where
  created_by : String
  empty_layer : Bool
deriving DecidableEq

structure Layer where
  size : Nat
deriving DecidableEq

structure Platform where
  name : String
deriving DecidableEq

structure ImageConfig where
  platform : Platform
  history : List HistoryItem
deriving DecidableEq

structure PlatformImage where
  platform_name : String
  digest : String
  layers : List Layer
  config : ImageConfig
deriving DecidableEq

/-- Line 78-79 of `run.py`. -/
def sum_layer_sizes (pimage : PlatformImage) : Nat :=
  (pimage.layers.map (fun layer => layer.size)).foldr (· + ·) 0

/-- Lines 156-161 of `run.py`: enumerate the filtered non-empty history
items and stop at the first one *identical* to `history[i]`.  List positions
model Python object identity, so the items are enumerated together with
their original index and the identity test compares that index. -/
def layerIdxFor (history : List HistoryItem) (i : Nat) : Option Nat :=
  ((history.enumFrom 0).filter (fun p => !p.2.empty_layer)).findIdx? (fun p => p.1 == i)

/-- Lines 152-167 of `run.py`: the size string computed by
`LayerChoice.__init__`.  Failure cases carry the Python exception raised:
out-of-range subscripts raise `IndexError`, an unmatched non-empty history
entry raises the `Exception("Logic failure.")` on line 164. -/
def layerChoiceSizeStr (pimage : PlatformImage) (history_idx : Nat) : Except String String :=
  match pimage.config.history.get? history_idx with
  | none => Except.error "IndexError"
  | some history_item =>
    if history_item.empty_layer then Except.ok (format_size 0)
    else
      match layerIdxFor pimage.config.history history_idx with
      | none => Except.error "Logic failure."
      | some layer_idx =>
        match pimage.layers.get? layer_idx with
        | none => Except.error "IndexError"
        | some relevant_layer => Except.ok (format_size relevant_layer.size)

/-- Lines 169-171 of `run.py`: the (truncated) label shown for a history
entry. -/
def layerChoiceLabel (pimage : PlatformImage) (history_idx : Nat) : Option String :=
  (pimage.config.history.get? history_idx).map
    (fun item => truncateHistoryLabel (clean_created_by item.created_by))

/-- Lines 334-338 of `run.py`: the tags-pane footer text set by
`RepositoryMenu._open_menu` from the menu's item count. -/
def tagsFooterText (item_count : Nat) : String :=
  if item_count == 1 then "1 tag" else toString item_count ++ " tags"

/-- Lines 376-380 of `run.py`: the images-pane footer text set by
`NamespaceMenu._open_menu` from the menu's item count. -/
def imagesFooterText (item_count : Nat) : String :=
  if item_count == 1 then "1 image" else toString item_count ++ " images"

/-- Modelled from the spec: the pure summary-count function `format_count`
of section 4.3 / 8 (`"1 <noun>"` for a count of one, `"<n> <noun-plural>"`
otherwise).  The source inlines this pattern; this definition follows the
spec's words, to be compared with the inlined code above. -/
def format_count (n : Nat) (singular plural : String) : String :=
  if n == 1 then "1 " ++ singular else toString n ++ " " ++ plural

/-- Lines 297-308 of `run.py`: the platform-image ordering applied by
`TagChoice.open_menu`.  With a preferred platform configured, the loop
appends non-matching images in order, remembers the last matching image
(dropping earlier matches), and finally inserts the remembered match at the
front. -/
def selectPlatformImages (preferred : Option Platform) (fetched : List PlatformImage) :
    List PlatformImage :=
  match preferred with
  | none => fetched
  | some pref =>
    let r := fetched.foldl
      (fun (acc : List PlatformImage × Option PlatformImage) pimage =>
        if pimage.config.platform == pref then (acc.1, some pimage)
        else (acc.1 ++ [pimage], acc.2))
      ([], none)
    match r.2 with
    | some preferred_pimage => preferred_pimage :: r.1
    | none => r.1

/- Widget model.  Only the state the program reads or writes is kept: the
current text of a label, a `ChangingText`'s construction-time markup and
format template, and which widget a frame's body currently is. -/

/-- A plain `urwid.Text` label: its current text. -/
structure TextW where
  text : String
deriving DecidableEq

/-- Lines 400-410 of `run.py`: a `ChangingText` label. -/
structure ChangingText where
  text : String
  initial_markup : String
  change_fmt : String
deriving DecidableEq

/-- Replace the first `\x7b\x7d` placeholder of the template with the value
(Python's `str.format` with one positional argument; every `change_fmt` in
the program contains exactly one placeholder). -/
def replaceBraces : List Char → String → List Char
  | [], _ => []
  | [c], _ => [c]
  | c1 :: c2 :: rest, v =>
    if c1 = '\x7b' ∧ c2 = '\x7d' then v.data ++ rest
    else c1 :: replaceBraces (c2 :: rest) v

def pyFormatOne (fmt value : String) : String :=
  String.mk (replaceBraces fmt.data value)

/-- Lines 406-407 of `run.py`. -/
def ChangingText.change_heading (ct : ChangingText) (value : String) : ChangingText :=
  { ct with text := pyFormatOne ct.change_fmt value }

/-- Lines 409-410 of `run.py`. -/
def ChangingText.reset (ct : ChangingText) : ChangingText :=
  { ct with text := ct.initial_markup }

/-- A frame's header or footer widget (after `unwrap`): either a
`ChangingText` or a plain `Text`. -/
inductive HF where
  | changing (ct : ChangingText)
  | plain (t : TextW)
deriving DecidableEq

/-- The widget currently installed as a frame's body.  `emptyMenu` is the
`make_menu([])` built at startup, `solid` a `SolidFill`, `fillerPile` the
`Filler(display_pile, ...)` body of `display_frame`, and `menuRef id` a menu
built by an `open_menu` call (identified by its heap id). -/
inductive Body where
  | emptyMenu
  | solid
  | fillerPile
  | menuRef (id : Nat)
deriving DecidableEq

/-- A plain `urwid.Frame` (used for `images_frame`). -/
structure PlainFrame where
  body : Body
  header : Option HF
  footer : Option HF
deriving DecidableEq

/-- Lines 413-446 of `run.py`. -/
structure ResettableFrame where
  body : Body
  header : Option HF
  footer : Option HF
  orig_body : Body
  orig_header_text : Option String
  orig_footer_text : Option String
deriving DecidableEq

/-- Lines 414-429 of `run.py`: `ResettableFrame.__init__` records the
construction body and, for plain (non-`ChangingText`) headers/footers, their
construction-time text. -/
def mkResettableFrame (body : Body) (header footer : Option HF) : ResettableFrame where
  body := body
  header := header
  footer := footer
  orig_body := body
  orig_header_text :=
    match header with
    | some (HF.plain t) => some t.text
    | _ => none
  orig_footer_text :=
    match footer with
    | some (HF.plain t) => some t.text
    | _ => none

/-- Lines 434-439 of `run.py`: the header handling of
`ResettableFrame.reset`.  Note the guard on line 438 tests
`orig_footer_text`, not `orig_header_text`; when it passes, the header is a
plain label and `mkResettableFrame` recorded its text, so the `Option.getD`
fallback is never exercised by frames the program builds. -/
def resetHeaderHF (header : Option HF) (origH origF : Option String) : Option HF :=
  match header with
  | some (HF.changing ct) => some (HF.changing ct.reset)
  | some (HF.plain t) =>
    match origF with
    | some _ => some (HF.plain { t with text := origH.getD t.text })
    | none => some (HF.plain t)
  | none => none

/-- Lines 441-446 of `run.py`: the footer handling of
`ResettableFrame.reset`. -/
def resetFooterHF (footer : Option HF) (origF : Option String) : Option HF :=
  match footer with
  | some (HF.changing ct) => some (HF.changing ct.reset)
  | some (HF.plain t) =>
    match origF with
    | some s => some (HF.plain { t with text := s })
    | none => some (HF.plain t)
  | none => none

/-- Lines 431-446 of `run.py`: restore the construction body, then the
header and footer labels. -/
def ResettableFrame.reset (f : ResettableFrame) : ResettableFrame :=
  { f with
    body := f.orig_body,
    header := resetHeaderHF f.header f.orig_header_text f.orig_footer_text,
    footer := resetFooterHF f.footer f.orig_footer_text }

/-- Set the current text of a header/footer widget (`set_text` after
`unwrap`). -/
def setHF_text (hf : Option HF) (v : String) : Option HF :=
  match hf with
  | some (HF.changing ct) => some (HF.changing { ct with text := v })
  | some (HF.plain t) => some (HF.plain { t with text := v })
  | none => none

/-- `change_heading` on a header after `unwrap`; the program only calls it
on `ChangingText` headers. -/
def changeHF_heading (hf : Option HF) (v : String) : Option HF :=
  match hf with
  | some (HF.changing ct) => some (HF.changing (ct.change_heading v))
  | other => other

/- The global panes of `run.py` (lines 479-546) and the focus state the
selection handlers write. -/

structure Display where
  images_frame : PlainFrame
  tags_frame : ResettableFrame
  platforms_frame : ResettableFrame
  layers_frame : ResettableFrame
  display_frame : ResettableFrame
  menus_focus : Nat
  container_focus : Nat
  display_pile_focus : Nat
deriving DecidableEq

/-- Lines 491-501 of `run.py`. -/
def imagesFrame0 : PlainFrame :=
  ⟨Body.emptyMenu, some (HF.changing ⟨"Images", "Images", "Images: \x7b\x7d"⟩),
   some (HF.plain ⟨""⟩)⟩

/-- Lines 502-512 of `run.py`. -/
def tagsFrame0 : ResettableFrame :=
  mkResettableFrame Body.emptyMenu
    (some (HF.changing ⟨"Tags", "Tags", "Tags: \x7b\x7d"⟩))
    (some (HF.plain ⟨""⟩))

/-- Lines 517-519 of `run.py`. -/
def platformsFrame0 : ResettableFrame := mkResettableFrame Body.solid none none

/-- Lines 520-522 of `run.py`. -/
def layersFrame0 : ResettableFrame := mkResettableFrame Body.solid none none

/-- Lines 534-540 of `run.py`. -/
def displayFrame0 : ResettableFrame :=
  mkResettableFrame Body.fillerPile (some (HF.changing ⟨"", "", "\x7b\x7d"⟩)) none

/-- The display state right after startup. -/
def initialDisplay : Display :=
  ⟨imagesFrame0, tagsFrame0, platformsFrame0, layersFrame0, displayFrame0, 0, 0, 0⟩

/-- Lines 543-546 of `run.py`. -/
def reset_display (d : Display) : Display :=
  { d with
    layers_frame := d.layers_frame.reset,
    platforms_frame := d.platforms_frame.reset,
    display_frame := d.display_frame.reset }

/-- Lines 367-368 of `run.py`: the reset phase of `NamespaceMenu._open_menu`
(`reset_display()` followed by `tags_frame.reset()`), before the new
content is installed. -/
def namespaceResetPhase (d : Display) : Display :=
  let d := reset_display d
  { d with tags_frame := d.tags_frame.reset }

/-- Lines 366-382 of `run.py`: the display effect of
`NamespaceMenu._open_menu(menu)`. -/
def namespaceOpenDisplay (ns : String) (menuId : Nat) (item_count : Nat) (d : Display) :
    Display :=
  let d := namespaceResetPhase d
  { d with
    images_frame :=
      { d.images_frame with
        body := Body.menuRef menuId,
        header := changeHF_heading d.images_frame.header ns,
        footer := setHF_text d.images_frame.footer (imagesFooterText item_count) },
    menus_focus := 2 }

/-- Lines 325-340 of `run.py`: the display effect of
`RepositoryMenu._open_menu(menu)`. -/
def repositoryOpenDisplay (repo_name : String) (menuId : Nat) (item_count : Nat)
    (d : Display) : Display :=
  let d := reset_display d
  { d with
    tags_frame :=
      { d.tags_frame with
        body := Body.menuRef menuId,
        header := changeHF_heading d.tags_frame.header repo_name,
        footer := setHF_text d.tags_frame.footer (tagsFooterText item_count) },
    menus_focus := 4 }

/-- Lines 276-285 of `run.py`: the display effect of
`TagChoice._open_menu(menu)`. -/
def tagOpenDisplay (repo_name tag : String) (menuId : Nat) (d : Display) : Display :=
  let d := reset_display d
  { d with
    display_frame :=
      { d.display_frame with
        header := setHF_text d.display_frame.header (repo_name ++ " - " ++ tag) },
    platforms_frame := { d.platforms_frame with body := Body.menuRef menuId },
    container_focus := 1,
    display_pile_focus := 0 }

/- Weak-reference heap.  A built menu gets a fresh id; the stored
`weakref.ref` is that id, and dereferencing (`menu()`) succeeds while the id
is still alive.  Reclamation of a menu nothing retains is an external,
memory-pressure-driven event. -/

structure Heap (α : Type) where
  nextId : Nat
  alive : List Nat
  store : List (Nat × α)

/-- Build a fresh menu object holding `content` and return it with its
identity. -/
def Heap.alloc (h : Heap α) (content : α) : Nat × Heap α :=
  (h.nextId, ⟨h.nextId + 1, h.nextId :: h.alive, (h.nextId, content) :: h.store⟩)

/-- Dereference a stored weak reference: `none` models both "no reference
stored yet" and "the referent was reclaimed". -/
def Heap.deref (h : Heap α) (r : Option Nat) : Option (Nat × α) :=
  match r with
  | none => none
  | some i => if i ∈ h.alive then (h.store.lookup i).map (fun c => (i, c)) else none

/-- External event: the runtime reclaims a menu nothing else retains. -/
def Heap.reclaim (h : Heap α) (i : Nat) : Heap α :=
  ⟨h.nextId, h.alive.erase i, h.store⟩

/- External registry collaborators (interfaces only) and the menu node
classes. -/

/-- The result of `repo.get_image(tag)`: exposes `get_platform_images()`. -/
structure Image where
  platform_images : List PlatformImage

/-- A `dreg_client` repository handle: `name`, `repository` (short name),
the result of `tags()`, and `get_image`. -/
structure Repository where
  name : String
  repository : String
  tags : List String
  get_image : String → Image

/-- Startup environment: the optional `DREG_PREFERRED_PLATFORM` (lines
53-58) and the registry client's `repositories(namespace=...)` query. -/
structure Env where
  preferred_platform : Option Platform
  repositories : String → List Repository

/-- Lines 317-323 of `run.py`: a repository node (also the row type of a
namespace's menu). -/
structure RepositoryMenu where
  repo : Repository
  menu : Option Nat

/-- Lines 267-274 of `run.py`: a tag node (also the row type of a
repository's menu). -/
structure TagChoice where
  repo : Repository
  tag : String
  menu : Option Nat

/-- Lines 187-211 of `run.py`: a platform row of a tag's menu (its own
`open_menu` and layer viewer are not modelled). -/
structure PlatformChoice where
  pimage : PlatformImage
  menu : Option Nat
  viewer : Option Nat

/-- Lines 358-364 of `run.py`: a namespace node. -/
structure NamespaceMenu where
  ns : String
  menu : Option Nat

/-- The mutable world: the display panes plus the menus built so far, one
heap per menu level (`hRepoMenus` holds images-pane menus whose rows are
`RepositoryMenu`s, and so on). -/
structure World where
  display : Display
  hRepoMenus : Heap (List RepositoryMenu)
  hTagMenus : Heap (List TagChoice)
  hPlatMenus : Heap (List PlatformChoice)

/-- What one `open_menu` call produced: the node afterwards (its cache slot
may have been filled), the menu returned (identity and rows), the world
afterwards, and whether the external collaborator was queried. -/
structure ActivationResult (ν ρ : Type) where
  node : ν
  menuId : Nat
  rows : List ρ
  world : World
  queried : Bool

/-- Lines 384-397 of `run.py`: `NamespaceMenu.open_menu`. -/
def NamespaceMenu.open_menu (n : NamespaceMenu) (env : Env) (w : World) :
    ActivationResult NamespaceMenu RepositoryMenu :=
  match w.hRepoMenus.deref n.menu with
  | some m =>
    { node := n, menuId := m.1, rows := m.2,
      world := { w with display := namespaceOpenDisplay n.ns m.1 m.2.length w.display },
      queried := false }
  | none =>
    let repositories := env.repositories n.ns
    let choices := repositories.map (fun repo => RepositoryMenu.mk repo none)
    let alloced := w.hRepoMenus.alloc choices
    { node := { n with menu := some alloced.1 }, menuId := alloced.1, rows := choices,
      world := { w with
                 hRepoMenus := alloced.2,
                 display := namespaceOpenDisplay n.ns alloced.1 choices.length w.display },
      queried := true }

/-- Lines 342-355 of `run.py`: `RepositoryMenu.open_menu`. -/
def RepositoryMenu.open_menu (node : RepositoryMenu) (w : World) :
    ActivationResult RepositoryMenu TagChoice :=
  match w.hTagMenus.deref node.menu with
  | some m =>
    { node := node, menuId := m.1, rows := m.2,
      world := { w with
                 display := repositoryOpenDisplay node.repo.name m.1 m.2.length w.display },
      queried := false }
  | none =>
    let tags := node.repo.tags
    let choices := tags.map (fun tag => TagChoice.mk node.repo tag none)
    let alloced := w.hTagMenus.alloc choices
    { node := { node with menu := some alloced.1 }, menuId := alloced.1, rows := choices,
      world := { w with
                 hTagMenus := alloced.2,
                 display := repositoryOpenDisplay node.repo.name alloced.1 choices.length
                   w.display },
      queried := true }

/-- Lines 287-314 of `run.py`: `TagChoice.open_menu`. -/
def TagChoice.open_menu (t : TagChoice) (env : Env) (w : World) :
    ActivationResult TagChoice PlatformChoice :=
  match w.hPlatMenus.deref t.menu with
  | some m =>
    { node := t, menuId := m.1, rows := m.2,
      world := { w with display := tagOpenDisplay t.repo.name t.tag m.1 w.display },
      queried := false }
  | none =>
    let image := t.repo.get_image t.tag
    let pimages := selectPlatformImages env.preferred_platform image.platform_images
    let choices := pimages.map (fun pimage => PlatformChoice.mk pimage none none)
    let alloced := w.hPlatMenus.alloc choices
    { node := { t with menu := some alloced.1 }, menuId := alloced.1, rows := choices,
      world := { w with
                 hPlatMenus := alloced.2,
                 display := tagOpenDisplay t.repo.name t.tag alloced.1 w.display },
      queried := true }

/-- The platform image of spec section 8: two history entries (one
non-empty, one empty buildkit no-op) and a single layer of 2048 bytes. -/
def examplePimage : PlatformImage :=
  { platform_name := "linux/amd64",
    digest := "sha256:0123456789abcdef0123456789abcdef",
    layers := [⟨2048⟩],
    config :=
      { platform := ⟨"linux/amd64"⟩,
        history := [⟨"/bin/sh -c #(nop) COPY x", false⟩,
                    ⟨"/bin/sh -c #(nop)  CMD [x] # buildkit", true⟩] } }

/-- Platform images for exercising the preferred-platform reordering. -/
def exPimageArm : PlatformImage :=
  { platform_name := "linux/arm64", digest := "sha256:aaaa", layers := [⟨100⟩],
    config := { platform := ⟨"linux/arm64"⟩, history := [] } }

def exPimageAmd : PlatformImage :=
  { platform_name := "linux/amd64", digest := "sha256:bbbb", layers := [⟨200⟩],
    config := { platform := ⟨"linux/amd64"⟩, history := [] } }

def exPimageRiscv : PlatformImage :=
  { platform_name := "linux/riscv64", digest := "sha256:cccc", layers := [⟨300⟩],
    config := { platform := ⟨"linux/riscv64"⟩, history := [] } }

/-- A concrete image handle for witnesses. -/
def exImage : Image := ⟨[exPimageAmd, exPimageArm]⟩

/-- A concrete repository handle for witnesses. -/
def exRepository : Repository :=
  { name := "library/app", repository := "app", tags := ["latest", "v1"],
    get_image := fun _ => exImage }

/-- A concrete startup environment for witnesses. -/
def exEnv : Env :=
  { preferred_platform := none, repositories := fun _ => [exRepository] }

/-- An empty menu heap. -/
def emptyHeap : Heap α := ⟨0, [], []⟩

/-- A namespace node that has never been activated. -/
def exNamespaceNode : NamespaceMenu := ⟨"library", none⟩

/-- A tag node whose cached menu (id 0) has been reclaimed. -/
def exTagNode : TagChoice := ⟨exRepository, "latest", some 0⟩

/-- A world with no menus built yet. -/
def exWorldA : World := ⟨initialDisplay, emptyHeap, emptyHeap, emptyHeap⟩

/-- A world where platform menu 0 was built and then reclaimed. -/
def exWorldB : World :=
  ⟨initialDisplay, emptyHeap, emptyHeap,
   (emptyHeap.alloc [PlatformChoice.mk exPimageAmd none none]).2.reclaim 0⟩

/-- Display states reachable by the program: the startup state followed by
any sequence of selection display updates (`_open_menu` calls of
`NamespaceMenu`, `RepositoryMenu` and `TagChoice`). -/
inductive Reach : Display → Prop where
  | init : Reach initialDisplay
  | nsStep (ns : String) (menuId item_count : Nat) (d : Display) :
      Reach d → Reach (namespaceOpenDisplay ns menuId item_count d)
  | repoStep (repo_name : String) (menuId item_count : Nat) (d : Display) :
      Reach d → Reach (repositoryOpenDisplay repo_name menuId item_count d)
  | tagStep (repo_name tag : String) (menuId : Nat) (d : Display) :
      Reach d → Reach (tagOpenDisplay repo_name tag menuId d)

/-- The frame shapes the program maintains: selections may change the body
and the current header/footer texts of the resettable panes, but never
their construction-time (`orig`) data, header kinds or format templates. -/
def intact (d : Display) : Prop :=
  (∃ b ht ft, d.tags_frame =
      ⟨b, some (HF.changing ⟨ht, "Tags", "Tags: \x7b\x7d"⟩), some (HF.plain ⟨ft⟩),
       Body.emptyMenu, none, some ""⟩) ∧
  (∃ b, d.platforms_frame = ⟨b, none, none, Body.solid, none, none⟩) ∧
  (∃ b, d.layers_frame = ⟨b, none, none, Body.solid, none, none⟩) ∧
  (∃ b ht, d.display_frame =
      ⟨b, some (HF.changing ⟨ht, "", "\x7b\x7d"⟩), none, Body.fillerPile, none, none⟩)

/-- A display reached by selecting a namespace, then a repository, then a
tag (used to exercise the reset theorems on a populated display). -/
def exDisplay : Display :=
  tagOpenDisplay "library/app" "latest" 0
    (repositoryOpenDisplay "library/app" 0 2 (namespaceOpenDisplay "library" 0 1 initialDisplay))

/-! Theorems. -/

/-- C5: for the example platform image (history `[COPY x (non-empty),
CMD (empty)]`, one layer of 2048 bytes), the `LayerChoice` for history index
0 displays `"2 KiB"` — the chosen layer is `layers[k]` with `k` the number
of non-empty entries preceding the entry, here 0 — and the `LayerChoice`
for history index 1 displays `"0 B"`. -/
theorem c5_example_layer_sizes :
    layerChoiceSizeStr examplePimage 0 = Except.ok "2 KiB" ∧
    layerChoiceSizeStr examplePimage 1 = Except.ok "0 B" ∧
    layerIdxFor examplePimage.config.history 0 = some 0 := by
  refine ⟨?_, ?_, ?_⟩ <;> rfl

/-- C6: the summary-count formatting is a pure function of the count and
noun pair: `"1 <noun>"` for a count of one and `"<n> <noun-plural>"`
otherwise; the inlined footer code of `RepositoryMenu._open_menu` and
`NamespaceMenu._open_menu` agrees with it at the noun pairs used, and the
three concrete cases of spec section 8 hold. -/
theorem c6_format_count :
    (∀ n : Nat, tagsFooterText n = format_count n "tag" "tags" ∧
      imagesFooterText n = format_count n "image" "images") ∧
    format_count 1 "tag" "tags" = "1 tag" ∧
    format_count 0 "tag" "tags" = "0 tags" ∧
    format_count 5 "tag" "tags" = "5 tags" ∧
    (∀ (n : Nat) (singular plural : String),
      (n = 1 → format_count n singular plural = "1 " ++ singular) ∧
      (n ≠ 1 → format_count n singular plural = toString n ++ " " ++ plural)) := by
  refine ⟨fun n => ⟨?_, ?_⟩, by decide, by decide, by decide, fun n s p => ⟨?_, ?_⟩⟩
  · unfold tagsFooterText format_count
    split
    · rfl
    · rw [String.append_assoc]
      exact congrArg (fun s => toString n ++ s) (by decide)
  · unfold imagesFooterText format_count
    split
    · rfl
    · rw [String.append_assoc]
      exact congrArg (fun s => toString n ++ s) (by decide)
  · intro h
    subst h
    rfl
  · intro h
    have hb : (n == 1) = false := by simpa using h
    simp [format_count, hb]

/-- C6 witness: the branch conditions discharged at the counts 1 and 5. -/
theorem c6_format_count_witness :
    ((1 : Nat) = 1 ∧ format_count 1 "tag" "tags" = "1 " ++ "tag") ∧
    ((5 : Nat) ≠ 1 ∧ format_count 5 "tag" "tags" = toString (5 : Nat) ++ " " ++ "tags") :=
  ⟨⟨rfl, (c6_format_count.2.2.2.2 1 "tag" "tags").1 rfl⟩,
   ⟨by decide, (c6_format_count.2.2.2.2 5 "tag" "tags").2 (by decide)⟩⟩

/-- C7: a cleaned history label of more than 25 code points is displayed as
its first 22 code points followed by the three-character marker `"..."`,
total length exactly 25; a label of length at most 25 is displayed
unchanged. -/
theorem c7_label_truncation (label : String) :
    (label.length > 25 →
      truncateHistoryLabel label = String.mk (label.data.take 22) ++ "..." ∧
      (String.mk (label.data.take 22)).length = 22 ∧
      (truncateHistoryLabel label).length = 25) ∧
    (label.length ≤ 25 → truncateHistoryLabel label = label) := by
  have hlen : label.length = label.data.length := rfl
  constructor
  · intro h
    have h22 : (label.data.take 22).length = 22 := by
      rw [List.length_take]
      omega
    have hmk : (String.mk (label.data.take 22)).length = (label.data.take 22).length := rfl
    unfold truncateHistoryLabel
    rw [if_pos h]
    refine ⟨rfl, by rw [hmk, h22], ?_⟩
    rw [String.length_append, hmk, h22]
    rfl
  · intro h
    unfold truncateHistoryLabel
    rw [if_neg (by omega)]

/-- C7 witness: a 26-code-point label is truncated to total length 25, a
6-code-point label is unchanged. -/
theorem c7_label_truncation_witness :
    ("abcdefghijklmnopqrstuvwxyz".length > 25 ∧
      truncateHistoryLabel "abcdefghijklmnopqrstuvwxyz" =
        String.mk ("abcdefghijklmnopqrstuvwxyz".data.take 22) ++ "..." ∧
      (truncateHistoryLabel "abcdefghijklmnopqrstuvwxyz").length = 25) ∧
    ("COPY x".length ≤ 25 ∧ truncateHistoryLabel "COPY x" = "COPY x") :=
  ⟨⟨by decide, ((c7_label_truncation _).1 (by decide)).1,
    ((c7_label_truncation _).1 (by decide)).2.2⟩,
   by decide, (c7_label_truncation _).2 (by decide)⟩

/-- C10: for byte counts below 1024, `format_size` returns the decimal
digits of the count followed by `" B"`; the binary-unit formatting of the
external library is applied only at 1024 bytes and above. -/
theorem c10_format_size_small (n m : Nat) (hn : n < 1024) (hm : 1024 ≤ m) :
    format_size n = Nat.repr n ++ " B" ∧ format_size m = base_format_size m := by
  constructor
  · unfold format_size
    rw [if_pos hn]
    rfl
  · unfold format_size
    rw [if_neg (by omega)]

/-- C10 witness: `format_size 1023 = "1023 B"` on the small branch, and
1024 itself already goes to the binary-unit branch. -/
theorem c10_format_size_small_witness :
    (1023 < 1024 ∧ 1024 ≤ 1024 ∧ format_size 1023 = Nat.repr 1023 ++ " B" ∧
      format_size 1024 = base_format_size 1024) ∧
    format_size 1023 = "1023 B" ∧ format_size 1024 = "1 KiB" :=
  ⟨⟨by decide, by decide, (c10_format_size_small 1023 1024 (by decide) (by decide)).1,
    (c10_format_size_small 1023 1024 (by decide) (by decide)).2⟩,
   by decide, by decide⟩

/-- The accumulating loop of `TagChoice.open_menu` (lines 298-304): the
first component collects the non-matching images in order, the second
remembers the last matching image. -/
theorem selectPlatformImages_loop (pref : Platform) (l : List PlatformImage)
    (acc : List PlatformImage) (po : Option PlatformImage) :
    l.foldl
      (fun (a : List PlatformImage × Option PlatformImage) pimage =>
        if pimage.config.platform == pref then (a.1, some pimage)
        else (a.1 ++ [pimage], a.2)) (acc, po)
    = (acc ++ l.filter (fun p => !(p.config.platform == pref)),
       l.foldl (fun o p => if p.config.platform == pref then some p else o) po) := by
  induction l generalizing acc po with
  | nil => simp
  | cons x xs ih =>
    simp only [List.foldl_cons, List.filter_cons]
    by_cases hx : (x.config.platform == pref) = true
    · rw [if_pos hx, if_pos hx, if_neg (by simp [hx]), ih]
    · rw [if_neg hx, if_neg hx, if_pos (by simp [hx]), ih, List.append_assoc]
      rfl

/-- If no element of `l` matches, the last-match accumulator is returned
unchanged. -/
theorem lastMatch_of_filter_nil (pref : Platform) (l : List PlatformImage)
    (po : Option PlatformImage)
    (h : l.filter (fun p => p.config.platform == pref) = []) :
    l.foldl (fun o p => if p.config.platform == pref then some p else o) po = po := by
  induction l generalizing po with
  | nil => rfl
  | cons x xs ih =>
    rw [List.filter_cons] at h
    by_cases hx : (x.config.platform == pref) = true
    · rw [if_pos hx] at h
      exact absurd h (by simp)
    · rw [if_neg hx] at h
      simp only [List.foldl_cons]
      rw [if_neg hx]
      exact ih po h

/-- If exactly `m` matches in `l`, the last-match accumulator ends as
`some m`. -/
theorem lastMatch_of_filter_singleton (pref : Platform) (l : List PlatformImage)
    (po : Option PlatformImage) (m : PlatformImage)
    (h : l.filter (fun p => p.config.platform == pref) = [m]) :
    l.foldl (fun o p => if p.config.platform == pref then some p else o) po = some m := by
  induction l generalizing po with
  | nil => exact absurd h (by simp)
  | cons x xs ih =>
    rw [List.filter_cons] at h
    by_cases hx : (x.config.platform == pref) = true
    · rw [if_pos hx] at h
      injection h with hxm hnil
      subst hxm
      simp only [List.foldl_cons]
      rw [if_pos hx]
      exact lastMatch_of_filter_nil pref xs (some x) hnil
    · rw [if_neg hx] at h
      simp only [List.foldl_cons]
      rw [if_neg hx]
      exact ih po h

/-- C9: with no preferred platform configured the fetched platform-image
order is used unchanged; with a preferred platform but no matching image the
fetched order is also unchanged; and with exactly one matching image the
menu lists that image first, followed by all the others in their original
relative order, a permutation of the fetched list. -/
theorem c9_preferred_platform_order (pref : Platform)
    (fetched unmatched : List PlatformImage)
    (hone : fetched.countP (fun p => p.config.platform == pref) = 1)
    (hzero : unmatched.countP (fun p => p.config.platform == pref) = 0) :
    selectPlatformImages none fetched = fetched ∧
    selectPlatformImages (some pref) unmatched = unmatched ∧
    (∃ m, fetched.filter (fun p => p.config.platform == pref) = [m] ∧
      selectPlatformImages (some pref) fetched =
        m :: fetched.filter (fun p => !(p.config.platform == pref)) ∧
      (selectPlatformImages (some pref) fetched).Perm fetched) := by
  refine ⟨rfl, ?_, ?_⟩
  · have hnil : unmatched.filter (fun p => p.config.platform == pref) = [] := by
      have := List.countP_eq_length_filter (fun p => p.config.platform == pref) unmatched
      rw [hzero] at this
      exact (List.length_eq_zero.mp this.symm)
    simp only [selectPlatformImages]
    rw [selectPlatformImages_loop, lastMatch_of_filter_nil pref unmatched none hnil]
    show List.filter (fun p => !(p.config.platform == pref)) unmatched = unmatched
    refine List.filter_eq_self.mpr ?_
    intro a ha
    have := (List.countP_eq_zero.mp hzero) a ha
    simpa using this
  · have hlen : (fetched.filter (fun p => p.config.platform == pref)).length = 1 := by
      rw [← List.countP_eq_length_filter]
      exact hone
    rcases List.length_eq_one.mp hlen with ⟨m, hm⟩
    refine ⟨m, hm, ?_, ?_⟩
    · simp only [selectPlatformImages]
      rw [selectPlatformImages_loop, lastMatch_of_filter_singleton pref fetched none m hm]
      rfl
    · simp only [selectPlatformImages]
      rw [selectPlatformImages_loop, lastMatch_of_filter_singleton pref fetched none m hm]
      show (m :: List.filter (fun p => !(p.config.platform == pref)) fetched).Perm fetched
      have hperm := List.filter_append_perm (fun p => p.config.platform == pref) fetched
      rw [hm] at hperm
      simpa using hperm

/-- C9 witness: fetched list `[arm, amd, riscv]` with preferred platform
`linux/amd64` (exactly one match) is reordered to `[amd, arm, riscv]`; a
list without the preferred platform is left alone. -/
theorem c9_preferred_platform_order_witness :
    ([exPimageArm, exPimageAmd, exPimageRiscv].countP
        (fun p => p.config.platform == Platform.mk "linux/amd64") = 1) ∧
    ([exPimageArm, exPimageRiscv].countP
        (fun p => p.config.platform == Platform.mk "linux/amd64") = 0) ∧
    (selectPlatformImages none [exPimageArm, exPimageAmd, exPimageRiscv] =
        [exPimageArm, exPimageAmd, exPimageRiscv] ∧
      selectPlatformImages (some (Platform.mk "linux/amd64")) [exPimageArm, exPimageRiscv] =
        [exPimageArm, exPimageRiscv] ∧
      (∃ m, [exPimageArm, exPimageAmd, exPimageRiscv].filter
          (fun p => p.config.platform == Platform.mk "linux/amd64") = [m] ∧
        selectPlatformImages (some (Platform.mk "linux/amd64"))
            [exPimageArm, exPimageAmd, exPimageRiscv] =
          m :: [exPimageArm, exPimageAmd, exPimageRiscv].filter
            (fun p => !(p.config.platform == Platform.mk "linux/amd64")) ∧
        (selectPlatformImages (some (Platform.mk "linux/amd64"))
            [exPimageArm, exPimageAmd, exPimageRiscv]).Perm
          [exPimageArm, exPimageAmd, exPimageRiscv])) ∧
    selectPlatformImages (some (Platform.mk "linux/amd64"))
        [exPimageArm, exPimageAmd, exPimageRiscv] =
      [exPimageAmd, exPimageArm, exPimageRiscv] :=
  ⟨by decide, by decide,
   c9_preferred_platform_order (Platform.mk "linux/amd64")
     [exPimageArm, exPimageAmd, exPimageRiscv] [exPimageArm, exPimageRiscv]
     (by decide) (by decide),
   by decide⟩

/-- The identity search of `LayerChoice.__init__`, generalized over the
enumeration start `n` and the `findIdx?` base `j`: looking for the original
position `n + i` in the filtered enumeration of a suffix starting at
position `n` finds the number of non-empty entries before position `i`. -/
theorem layerIdxFor_aux (l : List HistoryItem) (item : HistoryItem)
    (hne : item.empty_layer = false) :
    ∀ n i j : Nat, l.get? i = some item →
      ((l.enumFrom n).filter (fun p => !p.2.empty_layer)).findIdx? (fun p => p.1 == n + i) j
        = some (j + (l.take i).countP (fun it => !it.empty_layer)) := by
  induction l with
  | nil =>
    intro n i j hget
    simp at hget
  | cons x xs ih =>
    intro n i j hget
    cases i with
    | zero =>
      have hx : x = item := by simpa using hget
      subst hx
      simp [List.enumFrom_cons, List.filter_cons, List.findIdx?_cons, hne]
    | succ k =>
      have hget2 : xs.get? k = some item := by simpa using hget
      have harith : n + (k + 1) = (n + 1) + k := by omega
      rw [List.enumFrom_cons, List.filter_cons]
      by_cases hx : x.empty_layer = true
      · rw [if_neg (by simp [hx]), harith, ih (n + 1) k j hget2]
        rw [List.take_succ_cons, List.countP_cons_of_neg _ _ (by simp [hx])]
      · rw [if_pos (by simp [hx]), List.findIdx?_cons]
        rw [if_neg (by simp only [beq_iff_eq]; omega)]
        rw [harith, ih (n + 1) k (j + 1) hget2]
        rw [List.take_succ_cons, List.countP_cons_of_pos _ _ (by simp [hx])]
        simp only [Option.some.injEq]
        omega

/-- C4: for every platform image and every in-range history entry with
`empty_layer = false`, the identity search over the filtered non-empty
history always finds an index (the count of non-empty entries preceding
the entry), so the `Exception("Logic failure.")` branch of
`LayerChoice.__init__` is unreachable. -/
theorem c4_match_always_found (pimage : PlatformImage) (i : Nat) (item : HistoryItem)
    (hget : pimage.config.history.get? i = some item) (hne : item.empty_layer = false) :
    layerIdxFor pimage.config.history i
      = some ((pimage.config.history.take i).countP (fun it => !it.empty_layer)) ∧
    layerChoiceSizeStr pimage i ≠ Except.error "Logic failure." := by
  have h1 : layerIdxFor pimage.config.history i
      = some ((pimage.config.history.take i).countP (fun it => !it.empty_layer)) := by
    have h0 := layerIdxFor_aux pimage.config.history item hne 0 i 0 hget
    simpa [layerIdxFor, List.enum] using h0
  refine ⟨h1, ?_⟩
  simp only [layerChoiceSizeStr, hget, hne, h1]
  cases hl : pimage.layers.get? ((pimage.config.history.take i).countP (fun it => !it.empty_layer)) with
  | none =>
    simp
  | some l =>
    simp

/-- C4 witness: the non-empty first history entry of the example image. -/
theorem c4_match_always_found_witness :
    (examplePimage.config.history.get? 0 =
        some (HistoryItem.mk "/bin/sh -c #(nop) COPY x" false) ∧
      (HistoryItem.mk "/bin/sh -c #(nop) COPY x" false).empty_layer = false) ∧
    (layerIdxFor examplePimage.config.history 0 =
        some ((examplePimage.config.history.take 0).countP (fun it => !it.empty_layer)) ∧
      layerChoiceSizeStr examplePimage 0 ≠ Except.error "Logic failure.") :=
  ⟨⟨rfl, rfl⟩, c4_match_always_found examplePimage 0 _ rfl rfl⟩

/-- A freshly allocated menu dereferences to itself. -/
theorem deref_alloc (h : Heap α) (c : α) :
    (h.alloc c).2.deref (some (h.alloc c).1) = some ((h.alloc c).1, c) := by
  simp [Heap.alloc, Heap.deref, List.lookup]

/-- `NamespaceMenu.open_menu` on a cache hit. -/
theorem ns_open_menu_hit (n : NamespaceMenu) (env : Env) (w : World) (mid : Nat)
    (rows : List RepositoryMenu) (h : w.hRepoMenus.deref n.menu = some (mid, rows)) :
    n.open_menu env w =
      { node := n, menuId := mid, rows := rows,
        world := { w with display := namespaceOpenDisplay n.ns mid rows.length w.display },
        queried := false } := by
  simp only [NamespaceMenu.open_menu, h]

/-- `RepositoryMenu.open_menu` on a cache hit. -/
theorem repo_open_menu_hit (node : RepositoryMenu) (w : World) (mid : Nat)
    (rows : List TagChoice) (h : w.hTagMenus.deref node.menu = some (mid, rows)) :
    node.open_menu w =
      { node := node, menuId := mid, rows := rows,
        world := { w with
                   display := repositoryOpenDisplay node.repo.name mid rows.length w.display },
        queried := false } := by
  simp only [RepositoryMenu.open_menu, h]

/-- `TagChoice.open_menu` on a cache hit. -/
theorem tag_open_menu_hit (t : TagChoice) (env : Env) (w : World) (mid : Nat)
    (rows : List PlatformChoice) (h : w.hPlatMenus.deref t.menu = some (mid, rows)) :
    t.open_menu env w =
      { node := t, menuId := mid, rows := rows,
        world := { w with display := tagOpenDisplay t.repo.name t.tag mid w.display },
        queried := false } := by
  simp only [TagChoice.open_menu, h]

/-- After any `NamespaceMenu.open_menu` call the stored reference resolves
to the returned menu. -/
theorem ns_open_menu_deref (n : NamespaceMenu) (env : Env) (w : World) :
    (n.open_menu env w).world.hRepoMenus.deref (n.open_menu env w).node.menu
      = some ((n.open_menu env w).menuId, (n.open_menu env w).rows) := by
  rcases h : w.hRepoMenus.deref n.menu with _ | m
  · simp only [NamespaceMenu.open_menu, h]
    exact deref_alloc w.hRepoMenus _
  · rcases m with ⟨mid, rows⟩
    simp only [NamespaceMenu.open_menu, h]

/-- After any `RepositoryMenu.open_menu` call the stored reference resolves
to the returned menu. -/
theorem repo_open_menu_deref (node : RepositoryMenu) (w : World) :
    (node.open_menu w).world.hTagMenus.deref (node.open_menu w).node.menu
      = some ((node.open_menu w).menuId, (node.open_menu w).rows) := by
  rcases h : w.hTagMenus.deref node.menu with _ | m
  · simp only [RepositoryMenu.open_menu, h]
    exact deref_alloc w.hTagMenus _
  · rcases m with ⟨mid, rows⟩
    simp only [RepositoryMenu.open_menu, h]

/-- After any `TagChoice.open_menu` call the stored reference resolves to
the returned menu. -/
theorem tag_open_menu_deref (t : TagChoice) (env : Env) (w : World) :
    (t.open_menu env w).world.hPlatMenus.deref (t.open_menu env w).node.menu
      = some ((t.open_menu env w).menuId, (t.open_menu env w).rows) := by
  rcases h : w.hPlatMenus.deref t.menu with _ | m
  · simp only [TagChoice.open_menu, h]
    exact deref_alloc w.hPlatMenus _
  · rcases m with ⟨mid, rows⟩
    simp only [TagChoice.open_menu, h]

/-- C1: for every menu node (namespace, repository or tag), after any
activation the stored reclaimable reference is still resolvable, and a
second activation without intervening invalidation returns the identical
cached menu object (same heap identity and rows), leaves the node
unchanged, and makes no collaborator query. -/
theorem c1_second_activation_cached (n : NamespaceMenu) (rm : RepositoryMenu)
    (t : TagChoice) (env : Env) (w w2 w3 : World) :
    (let r := n.open_menu env w
     r.world.hRepoMenus.deref r.node.menu = some (r.menuId, r.rows) ∧
     (let r2 := r.node.open_menu env r.world
      r2.menuId = r.menuId ∧ r2.rows = r.rows ∧ r2.node = r.node ∧ r2.queried = false)) ∧
    (let r := rm.open_menu w2
     r.world.hTagMenus.deref r.node.menu = some (r.menuId, r.rows) ∧
     (let r2 := r.node.open_menu r.world
      r2.menuId = r.menuId ∧ r2.rows = r.rows ∧ r2.node = r.node ∧ r2.queried = false)) ∧
    (let r := t.open_menu env w3
     r.world.hPlatMenus.deref r.node.menu = some (r.menuId, r.rows) ∧
     (let r2 := r.node.open_menu env r.world
      r2.menuId = r.menuId ∧ r2.rows = r.rows ∧ r2.node = r.node ∧ r2.queried = false)) := by
  refine ⟨?_, ?_, ?_⟩
  · dsimp only
    have hd := ns_open_menu_deref n env w
    rw [ns_open_menu_hit _ env _ _ _ hd]
    exact ⟨hd, rfl, rfl, rfl, rfl⟩
  · dsimp only
    have hd := repo_open_menu_deref rm w2
    rw [repo_open_menu_hit _ _ _ _ hd]
    exact ⟨hd, rfl, rfl, rfl, rfl⟩
  · dsimp only
    have hd := tag_open_menu_deref t env w3
    rw [tag_open_menu_hit _ env _ _ _ hd]
    exact ⟨hd, rfl, rfl, rfl, rfl⟩

/-- C2: a node whose cached reference is absent or no longer resolvable
queries the collaborator, builds a fresh menu whose rows are exactly what a
fresh query produces now, stores a new resolvable reference, and returns
the fresh menu. -/
theorem c2_rebuild_on_miss (n : NamespaceMenu) (t : TagChoice) (env : Env) (w w2 : World)
    (hn : w.hRepoMenus.deref n.menu = none) (ht : w2.hPlatMenus.deref t.menu = none) :
    (let r := n.open_menu env w
     r.queried = true ∧
     r.rows = (env.repositories n.ns).map (fun repo => RepositoryMenu.mk repo none) ∧
     r.node.menu = some w.hRepoMenus.nextId ∧
     r.world.hRepoMenus.deref r.node.menu = some (r.menuId, r.rows)) ∧
    (let r := t.open_menu env w2
     r.queried = true ∧
     r.rows = (selectPlatformImages env.preferred_platform
         (t.repo.get_image t.tag).platform_images).map
         (fun pimage => PlatformChoice.mk pimage none none) ∧
     r.node.menu = some w2.hPlatMenus.nextId ∧
     r.world.hPlatMenus.deref r.node.menu = some (r.menuId, r.rows)) := by
  constructor
  · dsimp only
    simp only [NamespaceMenu.open_menu, hn]
    exact ⟨trivial, trivial, rfl, deref_alloc _ _⟩
  · dsimp only
    simp only [TagChoice.open_menu, ht]
    exact ⟨trivial, trivial, rfl, deref_alloc _ _⟩

/-- C2 witness: a never-activated namespace node on an empty world, and a
tag node whose menu was built and then reclaimed. -/
theorem c2_rebuild_on_miss_witness :
    exWorldA.hRepoMenus.deref exNamespaceNode.menu = none ∧
    exWorldB.hPlatMenus.deref exTagNode.menu = none ∧
    ((let r := exNamespaceNode.open_menu exEnv exWorldA
      r.queried = true ∧
      r.rows = (exEnv.repositories exNamespaceNode.ns).map
        (fun repo => RepositoryMenu.mk repo none) ∧
      r.node.menu = some exWorldA.hRepoMenus.nextId ∧
      r.world.hRepoMenus.deref r.node.menu = some (r.menuId, r.rows)) ∧
     (let r := exTagNode.open_menu exEnv exWorldB
      r.queried = true ∧
      r.rows = (selectPlatformImages exEnv.preferred_platform
          (exTagNode.repo.get_image exTagNode.tag).platform_images).map
          (fun pimage => PlatformChoice.mk pimage none none) ∧
      r.node.menu = some exWorldB.hPlatMenus.nextId ∧
      r.world.hPlatMenus.deref r.node.menu = some (r.menuId, r.rows))) :=
  ⟨rfl, rfl, c2_rebuild_on_miss exNamespaceNode exTagNode exEnv exWorldA exWorldB rfl rfl⟩

/-- The startup display has intact frame shapes. -/
theorem intact_init : intact initialDisplay :=
  ⟨⟨Body.emptyMenu, "Tags", "", rfl⟩, ⟨Body.solid, rfl⟩, ⟨Body.solid, rfl⟩,
   ⟨Body.fillerPile, "", rfl⟩⟩

/-- On an intact display, each resettable pane resets to exactly its
construction-time state. -/
theorem intact_resets (d : Display) (h : intact d) :
    d.tags_frame.reset = tagsFrame0 ∧ d.platforms_frame.reset = platformsFrame0 ∧
    d.layers_frame.reset = layersFrame0 ∧ d.display_frame.reset = displayFrame0 := by
  obtain ⟨⟨b1, ht1, ft1, h1⟩, ⟨b2, h2⟩, ⟨b3, h3⟩, ⟨b4, ht4, h4⟩⟩ := h
  rw [h1, h2, h3, h4]
  exact ⟨rfl, rfl, rfl, rfl⟩

/-- A namespace selection keeps the frame shapes intact. -/
theorem intact_ns (ns : String) (menuId item_count : Nat) (d : Display) (h : intact d) :
    intact (namespaceOpenDisplay ns menuId item_count d) := by
  have hr := intact_resets d h
  refine ⟨?_, ?_, ?_, ?_⟩ <;>
    simp only [namespaceOpenDisplay, namespaceResetPhase, reset_display]
  · exact ⟨Body.emptyMenu, "Tags", "", by rw [hr.1]; rfl⟩
  · exact ⟨Body.solid, by rw [hr.2.1]; rfl⟩
  · exact ⟨Body.solid, by rw [hr.2.2.1]; rfl⟩
  · exact ⟨Body.fillerPile, "", by rw [hr.2.2.2]; rfl⟩

/-- A repository selection keeps the frame shapes intact. -/
theorem intact_repo (repo_name : String) (menuId item_count : Nat) (d : Display)
    (h : intact d) : intact (repositoryOpenDisplay repo_name menuId item_count d) := by
  have hr := intact_resets d h
  obtain ⟨⟨b1, ht1, ft1, h1⟩, _, _, _⟩ := h
  refine ⟨?_, ?_, ?_, ?_⟩ <;>
    simp only [repositoryOpenDisplay, reset_display]
  · exact ⟨Body.menuRef menuId, pyFormatOne "Tags: \x7b\x7d" repo_name,
      tagsFooterText item_count, by rw [h1]; rfl⟩
  · exact ⟨Body.solid, by rw [hr.2.1]; rfl⟩
  · exact ⟨Body.solid, by rw [hr.2.2.1]; rfl⟩
  · exact ⟨Body.fillerPile, "", by rw [hr.2.2.2]; rfl⟩

/-- A tag selection keeps the frame shapes intact. -/
theorem intact_tag (repo_name tag : String) (menuId : Nat) (d : Display) (h : intact d) :
    intact (tagOpenDisplay repo_name tag menuId d) := by
  have hr := intact_resets d h
  obtain ⟨⟨b1, ht1, ft1, h1⟩, _, _, _⟩ := h
  refine ⟨?_, ?_, ?_, ?_⟩ <;>
    simp only [tagOpenDisplay, reset_display]
  · exact ⟨b1, ht1, ft1, h1⟩
  · exact ⟨Body.menuRef menuId, by rw [hr.2.1]; rfl⟩
  · exact ⟨Body.solid, by rw [hr.2.2.1]; rfl⟩
  · exact ⟨Body.fillerPile, repo_name ++ " - " ++ tag, by rw [hr.2.2.2]; rfl⟩

/-- Every reachable display has intact frame shapes. -/
theorem reach_intact (d : Display) (hd : Reach d) : intact d := by
  induction hd with
  | init => exact intact_init
  | nsStep ns menuId item_count d _ ih => exact intact_ns ns menuId item_count d ih
  | repoStep repo_name menuId item_count d _ ih =>
    exact intact_repo repo_name menuId item_count d ih
  | tagStep repo_name tag menuId d _ ih => exact intact_tag repo_name tag menuId d ih

/-- C3: on every selection of a node in a reachable display state, all
panes downstream of the level being replaced are restored — body, header
text and footer text — to their construction-time states before the new
content is installed: the reset phase of `NamespaceMenu._open_menu`
(`reset_display()` plus `tags_frame.reset()`) returns the tags, platforms,
layers and display panes to their startup frames, and the
`reset_display()` phase of `RepositoryMenu._open_menu` and
`TagChoice._open_menu` returns the platforms, layers and display panes to
their startup frames. -/
theorem c3_downstream_panes_reset (d : Display) (hd : Reach d) :
    ((namespaceResetPhase d).tags_frame = tagsFrame0 ∧
     (namespaceResetPhase d).platforms_frame = platformsFrame0 ∧
     (namespaceResetPhase d).layers_frame = layersFrame0 ∧
     (namespaceResetPhase d).display_frame = displayFrame0) ∧
    ((reset_display d).platforms_frame = platformsFrame0 ∧
     (reset_display d).layers_frame = layersFrame0 ∧
     (reset_display d).display_frame = displayFrame0) := by
  have h := intact_resets d (reach_intact d hd)
  constructor
  · refine ⟨?_, ?_, ?_, ?_⟩ <;> simp only [namespaceResetPhase, reset_display]
    · exact h.1
    · exact h.2.1
    · exact h.2.2.1
    · exact h.2.2.2
  · refine ⟨?_, ?_, ?_⟩ <;> simp only [reset_display]
    · exact h.2.1
    · exact h.2.2.1
    · exact h.2.2.2

/-- C3 witness: a display populated by selecting a namespace, a repository
and a tag is fully restored by the reset phases. -/
theorem c3_downstream_panes_reset_witness :
    Reach exDisplay ∧
    (((namespaceResetPhase exDisplay).tags_frame = tagsFrame0 ∧
      (namespaceResetPhase exDisplay).platforms_frame = platformsFrame0 ∧
      (namespaceResetPhase exDisplay).layers_frame = layersFrame0 ∧
      (namespaceResetPhase exDisplay).display_frame = displayFrame0) ∧
     ((reset_display exDisplay).platforms_frame = platformsFrame0 ∧
      (reset_display exDisplay).layers_frame = layersFrame0 ∧
      (reset_display exDisplay).display_frame = displayFrame0)) :=
  have hr : Reach exDisplay :=
    Reach.tagStep "library/app" "latest" 0 _
      (Reach.repoStep "library/app" 0 2 _ (Reach.nsStep "library" 0 1 _ Reach.init))
  ⟨hr, c3_downstream_panes_reset exDisplay hr⟩

/-- Resetting a header twice is the same as resetting it once. -/
theorem resetHeaderHF_idem (h : Option HF) (oh of : Option String) :
    resetHeaderHF (resetHeaderHF h oh of) oh of = resetHeaderHF h oh of := by
  rcases h with _ | (⟨ct⟩ | ⟨t⟩) <;> rcases of with _ | s <;> rcases oh with _ | s2 <;> rfl

/-- Resetting a footer twice is the same as resetting it once. -/
theorem resetFooterHF_idem (f : Option HF) (of : Option String) :
    resetFooterHF (resetFooterHF f of) of = resetFooterHF f of := by
  rcases f with _ | (⟨ct⟩ | ⟨t⟩) <;> rcases of with _ | s <;> rfl

/-- `ResettableFrame.reset` is idempotent. -/
theorem reset_idem (f : ResettableFrame) : f.reset.reset = f.reset := by
  simp only [ResettableFrame.reset, resetHeaderHF_idem, resetFooterHF_idem]

/-- A later `set_text` overwrites an earlier one. -/
theorem setHF_set (h : Option HF) (v v2 : String) :
    setHF_text (setHF_text h v) v2 = setHF_text h v2 := by
  rcases h with _ | (⟨ct⟩ | ⟨t⟩) <;> rfl

/-- Repeating `change_heading` with the same value changes nothing. -/
theorem changeHF_change (h : Option HF) (v : String) :
    changeHF_heading (changeHF_heading h v) v = changeHF_heading h v := by
  rcases h with _ | (⟨ct⟩ | ⟨t⟩) <;> rfl

/-- Setting a header text, resetting, and setting the same text again gives
the reset-then-set result. -/
theorem setHF_reset_set (h : Option HF) (oh of : Option String) (v : String) :
    setHF_text (resetHeaderHF (setHF_text h v) oh of) v
      = setHF_text (resetHeaderHF h oh of) v := by
  rcases h with _ | (⟨ct⟩ | ⟨t⟩) <;> rcases of with _ | s <;> rcases oh with _ | s2 <;> rfl

/-- Applying the namespace-selection display update twice with the same
arguments equals applying it once. -/
theorem namespaceOpenDisplay_idem (ns : String) (menuId item_count : Nat) (d : Display) :
    namespaceOpenDisplay ns menuId item_count (namespaceOpenDisplay ns menuId item_count d)
      = namespaceOpenDisplay ns menuId item_count d := by
  simp only [namespaceOpenDisplay, namespaceResetPhase, reset_display,
    ResettableFrame.reset, resetHeaderHF_idem, resetFooterHF_idem, setHF_set, changeHF_change]

/-- Applying the repository-selection display update twice with the same
arguments equals applying it once. -/
theorem repositoryOpenDisplay_idem (repo_name : String) (menuId item_count : Nat)
    (d : Display) :
    repositoryOpenDisplay repo_name menuId item_count
        (repositoryOpenDisplay repo_name menuId item_count d)
      = repositoryOpenDisplay repo_name menuId item_count d := by
  simp only [repositoryOpenDisplay, reset_display, ResettableFrame.reset,
    resetHeaderHF_idem, resetFooterHF_idem, setHF_set, changeHF_change]

/-- Applying the tag-selection display update twice with the same arguments
equals applying it once. -/
theorem tagOpenDisplay_idem (repo_name tag : String) (menuId : Nat) (d : Display) :
    tagOpenDisplay repo_name tag menuId (tagOpenDisplay repo_name tag menuId d)
      = tagOpenDisplay repo_name tag menuId d := by
  simp only [tagOpenDisplay, reset_display, ResettableFrame.reset,
    resetHeaderHF_idem, resetFooterHF_idem, setHF_set, setHF_reset_set]

/-- C8: selecting the same node twice in a row is idempotent on the visible
display state: the second activation serves the cached menu and reproduces
exactly the same headers, footers, pane bodies, focus positions, heaps and
node state as the first (for namespace, repository and tag selections). -/
theorem c8_selection_idempotent (n : NamespaceMenu) (rm : RepositoryMenu) (t : TagChoice)
    (env : Env) (w w2 w3 : World) :
    (let r := n.open_menu env w
     r.node.open_menu env r.world = { r with queried := false }) ∧
    (let r := rm.open_menu w2
     r.node.open_menu r.world = { r with queried := false }) ∧
    (let r := t.open_menu env w3
     r.node.open_menu env r.world = { r with queried := false }) := by
  refine ⟨?_, ?_, ?_⟩
  · dsimp only
    rcases h : w.hRepoMenus.deref n.menu with _ | ⟨mid, rows⟩
    · simp only [NamespaceMenu.open_menu, h]
      rw [deref_alloc]
      simp only [namespaceOpenDisplay_idem]
    · simp only [NamespaceMenu.open_menu, h]
      simp only [namespaceOpenDisplay_idem]
  · dsimp only
    rcases h : w2.hTagMenus.deref rm.menu with _ | ⟨mid, rows⟩
    · simp only [RepositoryMenu.open_menu, h]
      rw [deref_alloc]
      simp only [repositoryOpenDisplay_idem]
    · simp only [RepositoryMenu.open_menu, h]
      simp only [repositoryOpenDisplay_idem]
  · dsimp only
    rcases h : w3.hPlatMenus.deref t.menu with _ | ⟨mid, rows⟩
    · simp only [TagChoice.open_menu, h]
      rw [deref_alloc]
      simp only [tagOpenDisplay_idem]
    · simp only [TagChoice.open_menu, h]
      simp only [tagOpenDisplay_idem]

end DregTui
